import Mathlib

/-!
Verification of the macOS LoginItems bookmark decoder
(puffyCid/macos-loginitems, `src/loginitems.rs` and `src/loginitems_plist.rs`).

Bytes are modelled as `List Nat` (each element a byte value). The nom
combinators used by the source are modelled explicitly:
`bytes::streaming::take(n)` fails with `Incomplete` when fewer than `n`
bytes remain, otherwise splits the input; the fixed-width number readers
(`le_u32`, `be_u32`, `le_u16`, `le_u64`, `le_i32`, `le_i64`, `be_f64`) are
always applied to slices of exactly the right width produced by `take`,
so they are modelled as pure conversions. `nom::IResult` is modelled as
`Except NomErr (rest × value)`, mirroring the `(rest, value)` tuple order
of nom. Rust `f64` timestamp fields are kept as their raw 64-bit
big-endian bit pattern (a `Nat`): no claim concerns float arithmetic.
Rust `u32` wrapping subtraction (release semantics of `a - b`) is
modelled by `wrapSub32`.
-/

/-- Error type standing for the nom error cases: `incomplete` models
`Err::Incomplete` from the streaming combinators, `errorKind` models
`Err::Error` from the complete combinators and `Utf8Error`. -/
inductive NomErr where
  | incomplete
  | errorKind
deriving DecidableEq, Repr

/-- Little-endian value of a byte list (as read by nom `le_u16`/`le_u32`/`le_u64`). -/
def leNum (bytes : List Nat) : Nat :=
  bytes.foldr (fun b acc => b + 256 * acc) 0

/-- Big-endian value of a byte list (as read by nom `be_u32`/`be_f64`). -/
def beNum (bytes : List Nat) : Nat :=
  bytes.foldl (fun acc b => 256 * acc + b) 0

/-- Two's-complement signed interpretation of a little-endian 64-bit slice,
as read by nom `le_i64`. -/
def leI64val (bytes : List Nat) : Int :=
  let v := leNum bytes
  if v < 9223372036854775808 then (v : Int) else (v : Int) - 18446744073709551616

/-- Two's-complement signed interpretation of a little-endian 32-bit slice,
as read by nom `le_i32`. -/
def leI32val (bytes : List Nat) : Int :=
  let v := leNum bytes
  if v < 2147483648 then (v : Int) else (v : Int) - 4294967296

/-- Model of `nom::bytes::streaming::take(n)`: `Err(Incomplete)` when the
input has fewer than `n` bytes, otherwise `(rest, first n bytes)`. -/
def takeBytes (n : Nat) (l : List Nat) : Except NomErr (List Nat × List Nat) :=
  if l.length < n then .error .incomplete else .ok (l.drop n, l.take n)

/-- Rust `u32` wrapping subtraction `a - b` (release overflow semantics);
under debug assertions an underflowing subtraction panics instead. -/
def wrapSub32 (a b : Nat) : Nat :=
  (a + 4294967296 - b) % 4294967296

/-- `BookmarkHeader` from `loginitems.rs`. -/
structure BookmarkHeader where
  signature : Nat
  bookmark_data_length : Nat
  version : Nat
  bookmark_data_offset : Nat
deriving DecidableEq, Repr

/-- `LoginItemsData::bookmark_header`: four `u32` fields (the third
big-endian) followed by 32 reserved bytes — 48 bytes in total. -/
def bookmark_header (data : List Nat) : Except NomErr (List Nat × BookmarkHeader) := do
  let (input, sig) ← takeBytes 4 data
  let (input, data_length) ← takeBytes 4 input
  let (input, version) ← takeBytes 4 input
  let (input, data_offset) ← takeBytes 4 input
  let (input, _) ← takeBytes 32 input
  return (input, ⟨leNum sig, leNum data_length, beNum version, leNum data_offset⟩)

/-- `TableOfContentsHeader` from `loginitems.rs`. -/
structure TableOfContentsHeader where
  data_length : Nat
  record_type : Nat
  flags : Nat
deriving DecidableEq, Repr

/-- `TableOfContentsData` from `loginitems.rs`. -/
structure TableOfContentsData where
  level : Nat
  next_record_offset : Nat
  number_of_records : Nat
deriving DecidableEq, Repr

/-- `TableOfContentsDataRecord` from `loginitems.rs`. -/
structure TableOfContentsDataRecord where
  record_type : Nat
  data_offset : Nat
  reserved : Nat
deriving DecidableEq, Repr

/-- `StandardDataRecord` from `loginitems.rs`. -/
structure StandardDataRecord where
  data_length : Nat
  data_type : Nat
  record_data : List Nat
  record_type : Nat
deriving DecidableEq, Repr

/-- `LoginItemsData` from `loginitems.rs`. String-valued fields decoded from
bookmark bytes are kept as their raw byte lists; `app_id`/`app_binary` come
from plist keys and stay `String`. The field `has_executable_flag` is
modelled from the spec: the snapshot of `loginitems.rs` under `src/` does
not declare it, but the repository tests (`tests/loginitems_test.rs`) and
the example CLI read `loginitem.has_executable_flag`, so the field lives in
a decoder revision missing from `src/`; per the spec it is derived as
`(target_flags[0] & 0x02) != 0`, defaulting to `false`. -/
structure LoginItemsData where
  path : List (List Nat)
  cnid_path : List Int
  creation : Nat
  volume_path : List Nat
  volume_url : List Nat
  volume_name : List Nat
  volume_uuid : List Nat
  volume_size : Int
  volume_creation : Nat
  volume_flag : List Nat
  volume_root : Bool
  localized_name : List Nat
  security_extension : List Nat
  target_flags : List Nat
  username : List Nat
  folder_index : Int
  uid : Int
  creation_options : Int
  is_bundled : Bool
  app_id : String
  app_binary : String
  has_executable_flag : Bool
deriving DecidableEq, Repr

/-- Data-type constant `STRING_TYPE = 0x0101` from `loginitems.rs`. -/
def STRING_TYPE : Nat := 0x0101

/-- Data-type constant `DATA_TYPE = 0x0201`. -/
def DATA_TYPE : Nat := 0x0201

/-- Data-type constant `NUMBER_FOUR_BYTE = 0x0303`. -/
def NUMBER_FOUR_BYTE : Nat := 0x0303

/-- Data-type constant `NUMBER_EIGHT_BYTE = 0x0304`. -/
def NUMBER_EIGHT_BYTE : Nat := 0x0304

/-- Data-type constant `DATE = 0x0400`. -/
def DATE : Nat := 0x0400

/-- Data-type constant `BOOL_TRUE = 0x0501`. -/
def BOOL_TRUE : Nat := 0x0501

/-- Data-type constant `ARRAY_TYPE = 0x0601`. -/
def ARRAY_TYPE : Nat := 0x0601

/-- Data-type constant `URL = 0x0901`. -/
def URL : Nat := 0x0901

/-- TOC key constant `TARGET_PATH = 0x1004`. -/
def TARGET_PATH : Nat := 0x1004

/-- TOC key constant `TARGET_CNID_PATH = 0x1005`. -/
def TARGET_CNID_PATH : Nat := 0x1005

/-- TOC key constant `TARGET_FLAGS = 0x1010`. -/
def TARGET_FLAGS : Nat := 0x1010

/-- TOC key constant `TARGET_CREATION_DATE = 0x1040`. -/
def TARGET_CREATION_DATE : Nat := 0x1040

/-- TOC key constant `VOLUME_PATH = 0x2002`. -/
def VOLUME_PATH : Nat := 0x2002

/-- TOC key constant `VOLUME_URL = 0x2005`. -/
def VOLUME_URL : Nat := 0x2005

/-- TOC key constant `VOLUME_NAME = 0x2010`. -/
def VOLUME_NAME : Nat := 0x2010

/-- TOC key constant `VOLUME_UUID = 0x2011`. -/
def VOLUME_UUID : Nat := 0x2011

/-- TOC key constant `VOLUME_SIZE = 0x2012`. -/
def VOLUME_SIZE : Nat := 0x2012

/-- TOC key constant `VOLUME_CREATION = 0x2013`. -/
def VOLUME_CREATION : Nat := 0x2013

/-- TOC key constant `VOLUME_FLAGS = 0x2020`. -/
def VOLUME_FLAGS : Nat := 0x2020

/-- TOC key constant `VOLUME_ROOT = 0x2030`. -/
def VOLUME_ROOT : Nat := 0x2030

/-- TOC key constant `CONTAIN_FOLDER_INDEX = 0xc001`. -/
def CONTAIN_FOLDER_INDEX : Nat := 0xc001

/-- TOC key constant `CREATOR_USERNAME = 0xc011`. -/
def CREATOR_USERNAME : Nat := 0xc011

/-- TOC key constant `CREATOR_UID = 0xc012`. -/
def CREATOR_UID : Nat := 0xc012

/-- TOC key constant `CREATION_OPTIONS = 0xd010`. -/
def CREATION_OPTIONS : Nat := 0xd010

/-- TOC key constant `LOCALIZED_NAME = 0xf017`. -/
def LOCALIZED_NAME : Nat := 0xf017

/-- TOC key constant `SECURITY_EXTENSION = 0xf080`. -/
def SECURITY_EXTENSION : Nat := 0xf080

/-- The all-defaults record built at the top of `bookmark_data`
(`has_executable_flag` defaults to `false` per the spec). -/
def defaultLoginItems : LoginItemsData :=
  ⟨[], [], 0, [], [], [], [], 0, 0, [], false, [], [], [], [], 0, 0, 0, false, "", "", false⟩

/-- `LoginItemsData::table_of_contents_header`: `u32 LE` length then two
`u16 LE` fields. -/
def table_of_contents_header (data : List Nat) :
    Except NomErr (List Nat × TableOfContentsHeader) := do
  let (input, length) ← takeBytes 4 data
  let (input, record_type) ← takeBytes 2 input
  let (input, flags) ← takeBytes 2 input
  return (input, ⟨leNum length, leNum record_type, leNum flags⟩)

/-- `LoginItemsData::table_of_contents_data`: reads the 12-byte TOC body;
when `12 * number_of_records` exceeds the `data_length` reported by the TOC
header, the returned slice is re-sized to exactly `12 * number_of_records`
bytes (the taken block), otherwise the remaining input is passed through. -/
def table_of_contents_data (data : List Nat) (data_length : Nat) :
    Except NomErr (List Nat × TableOfContentsData) := do
  let (input, level) ← takeBytes 4 data
  let (input1, next_record_offset) ← takeBytes 4 input
  let (input2, number_of_records) ← takeBytes 4 input1
  let toc_data : TableOfContentsData :=
    ⟨leNum level, leNum next_record_offset, leNum number_of_records⟩
  let record_data := 12 * toc_data.number_of_records
  if data_length < record_data then do
    let (_, actual_record_data) ← takeBytes record_data input2
    return (actual_record_data, toc_data)
  else
    return (input2, toc_data)

/-- Loop body of `LoginItemsData::table_of_contents_record`: reads the
requested number of 12-byte records (`u32 LE` each of type, offset,
reserved), in order. -/
def table_of_contents_record (data : List Nat) (records : Nat) :
    Except NomErr (List Nat × List TableOfContentsDataRecord) :=
  match records with
  | 0 => .ok (data, [])
  | n + 1 => do
    let (input, record_type) ← takeBytes 4 data
    let (input, offset) ← takeBytes 4 input
    let (input, reserved) ← takeBytes 4 input
    let (rest, more) ← table_of_contents_record input n
    return (rest, ⟨leNum record_type, leNum offset, leNum reserved⟩ :: more)

/-- `LoginItemsData::bookmark_standard_data`: skips `data_offset - 4` bytes
(an unchecked Rust `u32` subtraction, modelled with release wrapping
semantics by `wrapSub32`), then reads `length`, `data_type` and `length`
payload bytes. -/
def bookmark_standard_data (bookmark_bytes : List Nat)
    (toc_record : TableOfContentsDataRecord) :
    Except NomErr (List Nat × StandardDataRecord) := do
  let offset := wrapSub32 toc_record.data_offset 4
  let (input, _) ← takeBytes offset bookmark_bytes
  let (input, length) ← takeBytes 4 input
  let standard_length := leNum length
  let (input, data_type) ← takeBytes 4 input
  let (input, record_data) ← takeBytes standard_length input
  return (input, ⟨standard_length, leNum data_type, record_data, toc_record.record_type⟩)

/-- `LoginItemsData::loginitem_data`: resolves every array offset through
`bookmark_standard_data` (any failure aborts with the error), keeping the
record type of the owning TOC record. -/
def loginitem_data (data : List Nat) (array_offsets : List Nat)
    (record : TableOfContentsDataRecord) :
    Except NomErr (List Nat × List StandardDataRecord) :=
  match array_offsets with
  | [] => .ok (data, [])
  | offset :: rest => do
    let (_, results) ← bookmark_standard_data data ⟨record.record_type, offset, 0⟩
    let (_, more) ← loginitem_data data rest record
    return (data, results :: more)

/-- `LoginItemsData::bookmark_array`: repeatedly reads `u32 LE` offsets
until the input is exhausted; fails when a non-multiple-of-4 tail (or an
empty input) is hit. -/
def bookmark_array (standard_data : List Nat) :
    Except NomErr (List Nat × List Nat) :=
  match standard_data with
  | b0 :: b1 :: b2 :: b3 :: rest =>
    let data_offsets := leNum [b0, b1, b2, b3]
    if rest = [] then .ok (rest, [data_offsets])
    else do
      let (final, more) ← bookmark_array rest
      return (final, data_offsets :: more)
  | _ => .error .incomplete

/-- Continuation byte test for UTF-8 validation (`0x80..=0xBF`). -/
def utf8cont (b : Nat) : Bool := 0x80 ≤ b && b ≤ 0xBF

/-- UTF-8 validity of a byte list, as checked by Rust
`str::from_utf8` (RFC 3629 ranges, surrogates and overlongs rejected). -/
def validUtf8 : List Nat → Bool
  | [] => true
  | b :: rest =>
    if b ≤ 0x7F then validUtf8 rest
    else if 0xC2 ≤ b && b ≤ 0xDF then
      match rest with
      | c1 :: r => utf8cont c1 && validUtf8 r
      | [] => false
    else if b = 0xE0 then
      match rest with
      | c1 :: c2 :: r => (0xA0 ≤ c1 && c1 ≤ 0xBF) && utf8cont c2 && validUtf8 r
      | _ => false
    else if (0xE1 ≤ b && b ≤ 0xEC) || b = 0xEE || b = 0xEF then
      match rest with
      | c1 :: c2 :: r => utf8cont c1 && utf8cont c2 && validUtf8 r
      | _ => false
    else if b = 0xED then
      match rest with
      | c1 :: c2 :: r => (0x80 ≤ c1 && c1 ≤ 0x9F) && utf8cont c2 && validUtf8 r
      | _ => false
    else if b = 0xF0 then
      match rest with
      | c1 :: c2 :: c3 :: r =>
        (0x90 ≤ c1 && c1 ≤ 0xBF) && utf8cont c2 && utf8cont c3 && validUtf8 r
      | _ => false
    else if 0xF1 ≤ b && b ≤ 0xF3 then
      match rest with
      | c1 :: c2 :: c3 :: r => utf8cont c1 && utf8cont c2 && utf8cont c3 && validUtf8 r
      | _ => false
    else if b = 0xF4 then
      match rest with
      | c1 :: c2 :: c3 :: r =>
        (0x80 ≤ c1 && c1 ≤ 0x8F) && utf8cont c2 && utf8cont c3 && validUtf8 r
      | _ => false
    else false

/-- `LoginItemsData::bookmark_data_type_string`: `from_utf8` keeps the
bytes verbatim on success (`none` models `Utf8Error`). -/
def bookmark_data_type_string (standard_data : List Nat) : Option (List Nat) :=
  if validUtf8 standard_data then some standard_data else none

/-- `LoginItemsData::bookmark_cnid`: streaming `le_i64`. -/
def bookmark_cnid (standard_data : List Nat) : Except NomErr (List Nat × Int) :=
  if standard_data.length < 8 then .error .errorKind
  else .ok (standard_data.drop 8, leI64val (standard_data.take 8))

/-- Loop body of `LoginItemsData::bookmark_target_flags`: reads `u64 LE`
values, pushing each, stopping when the input runs dry or three flags are
collected; a trailing fragment shorter than 8 bytes is an error. -/
def bookmark_target_flags (standard_data : List Nat) :
    Except NomErr (List Nat × List Nat) :=
  bookmark_target_flags_go standard_data []
where
  bookmark_target_flags_go : List Nat → List Nat → Except NomErr (List Nat × List Nat)
  | b0 :: b1 :: b2 :: b3 :: b4 :: b5 :: b6 :: b7 :: rest, acc =>
    let flags := leNum [b0, b1, b2, b3, b4, b5, b6, b7]
    let acc2 := acc ++ [flags]
    if rest = [] ∨ acc2.length = 3 then .ok (rest, acc2)
    else bookmark_target_flags_go rest acc2
  | _, _ => .error .incomplete

/-- `LoginItemsData::bookmark_data_type_number_eight`: complete `le_i64`. -/
def bookmark_data_type_number_eight (standard_data : List Nat) :
    Except NomErr (List Nat × Int) :=
  if standard_data.length < 8 then .error .errorKind
  else .ok (standard_data.drop 8, leI64val (standard_data.take 8))

/-- `LoginItemsData::bookmark_data_type_number_four`: complete `le_i32`. -/
def bookmark_data_type_number_four (standard_data : List Nat) :
    Except NomErr (List Nat × Int) :=
  if standard_data.length < 4 then .error .errorKind
  else .ok (standard_data.drop 4, leI32val (standard_data.take 4))

/-- `LoginItemsData::bookmark_data_type_date`: complete `be_f64`; the
big-endian 64-bit pattern is kept as a `Nat`. -/
def bookmark_data_type_date (standard_data : List Nat) :
    Except NomErr (List Nat × Nat) :=
  if standard_data.length < 8 then .error .errorKind
  else .ok (standard_data.drop 8, beNum (standard_data.take 8))

/-- Field assignment `login_items_data.target_flags = flags` together with
the spec-modelled derivation of `has_executable_flag`
(`(target_flags[0] & 0x02) != 0`; the field is absent from the `src/`
snapshot but required by the repository tests). -/
def set_target_flags (item : LoginItemsData) (flags : List Nat) : LoginItemsData :=
  { item with target_flags := flags,
              has_executable_flag := decide (flags.headD 0 &&& 0x02 ≠ 0) }

/-- Field assignment `login_items_data.creation = v`. -/
def set_creation (item : LoginItemsData) (v : Nat) : LoginItemsData :=
  { item with creation := v }

/-- Field assignment `login_items_data.volume_path = v`. -/
def set_volume_path (item : LoginItemsData) (v : List Nat) : LoginItemsData :=
  { item with volume_path := v }

/-- Field assignment `login_items_data.volume_url = v`. -/
def set_volume_url (item : LoginItemsData) (v : List Nat) : LoginItemsData :=
  { item with volume_url := v }

/-- Field assignment `login_items_data.volume_name = v`. -/
def set_volume_name (item : LoginItemsData) (v : List Nat) : LoginItemsData :=
  { item with volume_name := v }

/-- Field assignment `login_items_data.volume_uuid = v`. -/
def set_volume_uuid (item : LoginItemsData) (v : List Nat) : LoginItemsData :=
  { item with volume_uuid := v }

/-- Field assignment `login_items_data.volume_size = v`. -/
def set_volume_size (item : LoginItemsData) (v : Int) : LoginItemsData :=
  { item with volume_size := v }

/-- Field assignment `login_items_data.volume_creation = v`. -/
def set_volume_creation (item : LoginItemsData) (v : Nat) : LoginItemsData :=
  { item with volume_creation := v }

/-- Field assignment `login_items_data.volume_flag = v`. -/
def set_volume_flag (item : LoginItemsData) (v : List Nat) : LoginItemsData :=
  { item with volume_flag := v }

/-- Field assignment `login_items_data.volume_root = true`. -/
def set_volume_root (item : LoginItemsData) : LoginItemsData :=
  { item with volume_root := true }

/-- Field assignment `login_items_data.localized_name = v`. -/
def set_localized_name (item : LoginItemsData) (v : List Nat) : LoginItemsData :=
  { item with localized_name := v }

/-- Field assignment `login_items_data.security_extension = v`. -/
def set_security_extension (item : LoginItemsData) (v : List Nat) : LoginItemsData :=
  { item with security_extension := v }

/-- Field assignment `login_items_data.username = v`. -/
def set_username (item : LoginItemsData) (v : List Nat) : LoginItemsData :=
  { item with username := v }

/-- Field assignment `login_items_data.folder_index = v`. -/
def set_folder_index (item : LoginItemsData) (v : Int) : LoginItemsData :=
  { item with folder_index := v }

/-- Field assignment `login_items_data.uid = v`. -/
def set_uid (item : LoginItemsData) (v : Int) : LoginItemsData :=
  { item with uid := v }

/-- Field assignment `login_items_data.creation_options = v`. -/
def set_creation_options (item : LoginItemsData) (v : Int) : LoginItemsData :=
  { item with creation_options := v }

/-- Push `login_items_data.path.push(path)`. -/
def push_path (item : LoginItemsData) (v : List Nat) : LoginItemsData :=
  { item with path := item.path ++ [v] }

/-- Push `login_items_data.cnid_path.push(cnid)`. -/
def push_cnid (item : LoginItemsData) (v : Int) : LoginItemsData :=
  { item with cnid_path := item.cnid_path ++ [v] }

/-- Scalar dispatch chain of `bookmark_data` (the `if`/`else if` ladder run
when `standard_data_vec` stays empty): each matching record/data type pair
populates one field; parse failures of a leaf value only log a warning and
leave the field untouched. The `TARGET_FLAGS` branch additionally derives
`has_executable_flag`; that derivation is modelled from the spec
(`(target_flags[0] & 0x02) != 0`), the field being absent from the
`loginitems.rs` snapshot under `src/` while required by the repository
tests. -/
def process_scalar (standard_data : StandardDataRecord) (record_data : List Nat)
    (item : LoginItemsData) : LoginItemsData :=
  if standard_data.record_type = TARGET_FLAGS ∧ standard_data.data_type = DATA_TYPE then
    match bookmark_target_flags record_data with
    | .ok (_, flags) => if flags = [] then item else set_target_flags item flags
    | .error _ => item
  else if standard_data.record_type = TARGET_CREATION_DATE ∧ standard_data.data_type = DATE then
    match bookmark_data_type_date record_data with
    | .ok (_, creation) => set_creation item creation
    | .error _ => item
  else if standard_data.record_type = VOLUME_PATH ∧ standard_data.data_type = STRING_TYPE then
    match bookmark_data_type_string record_data with
    | some volume_root_data => set_volume_path item volume_root_data
    | none => item
  else if standard_data.record_type = VOLUME_URL ∧ standard_data.data_type = URL then
    match bookmark_data_type_string record_data with
    | some volume_url => set_volume_url item volume_url
    | none => item
  else if standard_data.record_type = VOLUME_NAME ∧ standard_data.data_type = STRING_TYPE then
    match bookmark_data_type_string record_data with
    | some volume_name => set_volume_name item volume_name
    | none => item
  else if standard_data.record_type = VOLUME_UUID ∧ standard_data.data_type = STRING_TYPE then
    match bookmark_data_type_string record_data with
    | some volume_uuid => set_volume_uuid item volume_uuid
    | none => item
  else if standard_data.record_type = VOLUME_SIZE ∧ standard_data.data_type = NUMBER_EIGHT_BYTE then
    match bookmark_data_type_number_eight record_data with
    | .ok (_, size) => set_volume_size item size
    | .error _ => item
  else if standard_data.record_type = VOLUME_CREATION ∧ standard_data.data_type = DATE then
    match bookmark_data_type_date record_data with
    | .ok (_, creation) => set_volume_creation item creation
    | .error _ => item
  else if standard_data.record_type = VOLUME_FLAGS ∧ standard_data.data_type = DATA_TYPE then
    match bookmark_target_flags record_data with
    | .ok (_, flags) => set_volume_flag item flags
    | .error _ => item
  else if standard_data.record_type = VOLUME_ROOT ∧ standard_data.data_type = BOOL_TRUE then
    set_volume_root item
  else if standard_data.record_type = LOCALIZED_NAME ∧ standard_data.data_type = STRING_TYPE then
    match bookmark_data_type_string record_data with
    | some local_name => set_localized_name item local_name
    | none => item
  else if standard_data.record_type = SECURITY_EXTENSION ∧ standard_data.data_type = DATA_TYPE then
    match bookmark_data_type_string record_data with
    | some extension => set_security_extension item extension
    | none => item
  else if standard_data.record_type = CREATOR_USERNAME ∧ standard_data.data_type = STRING_TYPE then
    match bookmark_data_type_string record_data with
    | some username => set_username item username
    | none => item
  else if standard_data.record_type = CONTAIN_FOLDER_INDEX
      ∧ standard_data.data_type = NUMBER_FOUR_BYTE then
    match bookmark_data_type_number_four record_data with
    | .ok (_, index) => set_folder_index item index
    | .error _ => item
  else if standard_data.record_type = CREATOR_UID ∧ standard_data.data_type = NUMBER_FOUR_BYTE then
    match bookmark_data_type_number_four record_data with
    | .ok (_, uid) => set_uid item uid
    | .error _ => item
  else if standard_data.record_type = CREATION_OPTIONS
      ∧ standard_data.data_type = NUMBER_FOUR_BYTE then
    match bookmark_data_type_number_four record_data with
    | .ok (_, options) => set_creation_options item options
    | .error _ => item
  else item

/-- Array dispatch loop of `bookmark_data` (the `for standard_data in
standard_data_vec` loop): string entries under `TARGET_PATH` extend `path`,
8-byte-number entries under `TARGET_CNID_PATH` extend `cnid_path`; leaf
parse failures skip the entry. This is the loop body for one entry. -/
def process_array_item (standard_data : StandardDataRecord) (item : LoginItemsData) :
    LoginItemsData :=
  if standard_data.data_type = STRING_TYPE ∧ standard_data.record_type = TARGET_PATH then
    match bookmark_data_type_string standard_data.record_data with
    | some path => push_path item path
    | none => item
  else if standard_data.data_type = NUMBER_EIGHT_BYTE
      ∧ standard_data.record_type = TARGET_CNID_PATH then
    match bookmark_cnid standard_data.record_data with
    | .ok (_, cnid) => push_cnid item cnid
    | .error _ => item
  else item

/-- Folds `process_array_item` over the resolved array entries in order. -/
def process_array_items (vec : List StandardDataRecord) (item : LoginItemsData) :
    LoginItemsData :=
  match vec with
  | [] => item
  | standard_data :: rest => process_array_items rest (process_array_item standard_data item)

/-- Per-TOC-record body of the `for record in toc_content_data_record` loop
of `bookmark_data`: resolve the standard record (failure aborts the whole
decode), then either resolve an array (array parse failure falls through to
the scalar chain; an empty resolved array skips the record; offset
resolution failure aborts) or run the scalar chain. -/
def process_record (core_data : List Nat) (item : LoginItemsData)
    (record : TableOfContentsDataRecord) : Except NomErr LoginItemsData := do
  let (_, standard_data) ← bookmark_standard_data core_data record
  let record_data := standard_data.record_data
  if standard_data.data_type = ARRAY_TYPE then
    match bookmark_array record_data with
    | .ok (_, results) =>
      if results = [] then return item
      else do
        let (_, standard_data_vec) ← loginitem_data core_data results record
        return process_array_items standard_data_vec item
    | .error _ => return process_scalar standard_data record_data item
  else
    return process_scalar standard_data record_data item

/-- Folds `process_record` over the TOC records in order, starting from the
all-defaults record, propagating the first error. -/
def process_records (core_data : List Nat)
    (records : List TableOfContentsDataRecord) (item : LoginItemsData) :
    Except NomErr LoginItemsData :=
  match records with
  | [] => .ok item
  | record :: rest => do
    process_records core_data rest (← process_record core_data item record)

/-- `LoginItemsData::bookmark_data`: reads the TOC offset (the subtraction
`table_of_contents_offset - 4` is the unchecked Rust `u32` subtraction,
modelled wrapping), slices out the record heap, reads the TOC header, body
and record table, then folds the per-record processing. -/
def bookmark_data (data : List Nat) : Except NomErr (List Nat × LoginItemsData) := do
  let (input, offset) ← takeBytes 4 data
  let toc_offset := leNum offset
  let (input, core_data) ← takeBytes (wrapSub32 toc_offset 4) input
  let (input, toc_header) ← table_of_contents_header input
  let (toc_record_data, toc_content_data) ←
    table_of_contents_data input toc_header.data_length
  let (_, toc_content_data_record) ←
    table_of_contents_record toc_record_data toc_content_data.number_of_records
  let login_items_data ← process_records core_data toc_content_data_record defaultLoginItems
  return (input, login_items_data)

/-- `LoginItemsResults` from `loginitems.rs`. -/
structure LoginItemsResults where
  results : List LoginItemsData
  path : String
deriving DecidableEq, Repr

/-- One iteration of the candidate loop in
`LoginItemsData::parse_loginitems`: header parse failure or body decode
failure abort the document (`error`); a signature or data-offset mismatch
silently skips the candidate (`ok none`); otherwise the decoded record is
emitted (`ok (some record)`). -/
def processBlob (data : List Nat) : Except NomErr (Option LoginItemsData) :=
  match bookmark_header data with
  | .error e => .error e
  | .ok (bookmark_rest, header) =>
    if header.signature ≠ 1802465122 ∨ header.bookmark_data_offset ≠ 48 then .ok none
    else
      match bookmark_data bookmark_rest with
      | .ok (_, item) => .ok (some item)
      | .error e => .error e

/-- The candidate loop of `parse_loginitems`: records are pushed in
traversal order, the first error aborts. -/
def processBlobs (blobs : List (List Nat)) : Except NomErr (List LoginItemsData) :=
  match blobs with
  | [] => .ok []
  | b :: bs =>
    match processBlob b with
    | .error e => .error e
    | .ok none => processBlobs bs
    | .ok (some r) => (processBlobs bs).map (r :: ·)

/-- `LoginItemsData::parse_loginitems`, abstracted over file reading: the
`blobs` argument is the candidate list returned by
`loginitems_plist::get_bookmarks` for the file at `path`. An empty
candidate list returns early with an empty `path` string; otherwise the
loop result is wrapped with the input path. -/
def parse_loginitems (path : String) (blobs : List (List Nat)) :
    Except NomErr LoginItemsResults :=
  if blobs = [] then .ok ⟨[], ""⟩
  else (processBlobs blobs).map (fun results => ⟨results, path⟩)

/-- Dynamically typed plist value tree, as consumed by
`loginitems_plist.rs` (`plist::Value`): only the shapes the locator
inspects are distinguished. -/
inductive PValue where
  | data (bytes : List Nat)
  | dict (entries : List (String × PValue))
  | array (vals : List PValue)
  | other

/-- Dictionary sub-loop of `get_array_values`: inside a nested dictionary,
only `Data` values of at least 48 bytes are collected; shorter blobs and
non-data values are skipped. -/
def dict_array_values (entries : List (String × PValue)) : List (List Nat) :=
  match entries with
  | [] => []
  | (_, PValue.data bytes) :: rest =>
    if bytes.length < 48 then dict_array_values rest
    else bytes :: dict_array_values rest
  | _ :: rest => dict_array_values rest

/-- `loginitems_plist::get_array_values`: a top-level `Data` entry is
pushed unconditionally; a `Dictionary` entry is descended one level with
the 48-byte filter; every other value is skipped. The Rust function
returns `Result` but never constructs an error. -/
def get_array_values (data_results : List PValue) : List (List Nat) :=
  match data_results with
  | [] => []
  | PValue.data bytes :: rest => bytes :: get_array_values rest
  | PValue.dict entries :: rest => dict_array_values entries ++ get_array_values rest
  | _ :: rest => get_array_values rest

/-- `loginitems_plist::get_bookmarks`, abstracted over file reading: walks
the top-level dictionary in order; the first `$objects` key holding an
array yields its candidates, a `$objects` key holding anything else is
passed over with a warning, and a document without a usable `$objects`
yields no candidates. -/
def get_bookmarks (login_items : List (String × PValue)) : List (List Nat) :=
  match login_items with
  | [] => []
  | (key, value) :: rest =>
    if key ≠ "$objects" then get_bookmarks rest
    else
      match value with
      | PValue.array value_array => get_array_values value_array
      | _ => get_bookmarks rest

/-- Plist value as seen by `LoginItemsData::loginitem_apps` when reading a
bundled-app registry entry: `value.as_string()` yields `some` exactly for
string values. -/
inductive AppValue where
  | str (s : String)
  | nonstr
deriving DecidableEq, Repr

/-- Model of `plist::Value::as_string`. -/
def app_value_as_string (v : AppValue) : Option String :=
  match v with
  | AppValue.str s => some s
  | AppValue.nonstr => none

/-- Character-list helper for `strStartsWith`. -/
def strStartsWithAux : List Char → List Char → Bool
  | [], _ => true
  | _ :: _, [] => false
  | p :: ps, c :: cs => decide (p.toNat = c.toNat) && strStartsWithAux ps cs

/-- Model of Rust `str::starts_with` over the character data. -/
def strStartsWith (s pat : String) : Bool :=
  strStartsWithAux pat.data s.data

/-- Per-dictionary loop of `LoginItemsData::loginitem_apps` over one parsed
registry plist: keys starting with `version` are skipped; every other key
yields a bundled record via `value.as_string().unwrap()` — `none` models
the `unwrap` panic on a non-string value (the enclosing function has no
error path for it). -/
def loginitem_apps_entries (entries : List (String × AppValue)) :
    Option (List LoginItemsData) :=
  match entries with
  | [] => some []
  | (key, value) :: rest =>
    if strStartsWith key "version" then loginitem_apps_entries rest
    else
      match app_value_as_string value with
      | none => none
      | some s =>
        (loginitem_apps_entries rest).map
          (fun more =>
            { defaultLoginItems with is_bundled := true, app_id := s, app_binary := key } :: more)

/-- Bookmark body (bytes after the 48-byte header) whose TOC declares zero
records: TOC offset 4, TOC header with `data_length` 0 and the
`0xFFFE`/`0xFFFF` magic, TOC body with level 1 and zero records. Decodes to
the all-defaults record. -/
def zeroRecordsBlob : List Nat :=
  [4, 0, 0, 0,
   0, 0, 0, 0, 254, 255, 255, 255,
   1, 0, 0, 0, 0, 0, 0, 0, 0, 0, 0, 0]

/-- Crafted decodable bookmark body whose `TARGET_PATH` array holds one
string while its `TARGET_CNID_PATH` array holds two 8-byte integers: the
decoder accepts it, producing `path` of length 1 and `cnid_path` of
length 2. Layout (region offsets): string record at 4, two CNID records
at 13 and 29, their arrays at 45 and 57, TOC at 73 with two records. -/
def c3blob : List Nat :=
  [
    73, 0, 0, 0, 1, 0, 0, 0, 1, 1, 0, 0, 65, 8, 0, 0, 0, 4, 3, 0, 0, 1, 0, 0, 0, 0, 0, 0, 0, 8, 0,
    0, 0, 4, 3, 0, 0, 2, 0, 0, 0, 0, 0, 0, 0, 4, 0, 0, 0, 1, 6, 0, 0, 4, 0, 0, 0, 8, 0, 0, 0, 1,
    6, 0, 0, 13, 0, 0, 0, 29, 0, 0, 0, 24, 0, 0, 0, 254, 255, 255, 255, 1, 0, 0, 0, 0, 0, 0, 0, 2,
    0, 0, 0, 4, 16, 0, 0, 45, 0, 0, 0, 0, 0, 0, 0, 5, 16, 0, 0, 57, 0, 0, 0, 0, 0, 0, 0]

/-- Body (after the 48-byte header) of the bookmark inside the
repository's `backgrounditems_sierra.btm` fixture (the byte array of the
`test_bookmark_data` unit test in `loginitems.rs`): the Syncthing login
item with two path components and two CNIDs. -/
def syncthingBody : List Nat :=
  [
    8, 2, 0, 0, 12, 0, 0, 0, 1, 1, 0, 0, 65, 112, 112, 108, 105, 99, 97, 116, 105, 111, 110, 115,
    13, 0, 0, 0, 1, 1, 0, 0, 83, 121, 110, 99, 116, 104, 105, 110, 103, 46, 97, 112, 112, 0, 0, 0,
    8, 0, 0, 0, 1, 6, 0, 0, 4, 0, 0, 0, 24, 0, 0, 0, 8, 0, 0, 0, 4, 3, 0, 0, 103, 0, 0, 0, 0, 0,
    0, 0, 8, 0, 0, 0, 4, 3, 0, 0, 42, 198, 10, 0, 0, 0, 0, 0, 8, 0, 0, 0, 1, 6, 0, 0, 64, 0, 0, 0,
    80, 0, 0, 0, 8, 0, 0, 0, 0, 4, 0, 0, 65, 195, 213, 41, 226, 128, 0, 0, 24, 0, 0, 0, 1, 2, 0,
    0, 2, 0, 0, 0, 0, 0, 0, 0, 15, 0, 0, 0, 0, 0, 0, 0, 0, 0, 0, 0, 0, 0, 0, 0, 8, 0, 0, 0, 1, 9,
    0, 0, 102, 105, 108, 101, 58, 47, 47, 47, 12, 0, 0, 0, 1, 1, 0, 0, 77, 97, 99, 105, 110, 116,
    111, 115, 104, 32, 72, 68, 8, 0, 0, 0, 4, 3, 0, 0, 0, 96, 127, 115, 37, 0, 0, 0, 8, 0, 0, 0,
    0, 4, 0, 0, 65, 172, 190, 215, 104, 0, 0, 0, 36, 0, 0, 0, 1, 1, 0, 0, 48, 65, 56, 49, 70, 51,
    66, 49, 45, 53, 49, 68, 57, 45, 51, 51, 51, 53, 45, 66, 51, 69, 51, 45, 49, 54, 57, 67, 51,
    54, 52, 48, 51, 54, 48, 68, 24, 0, 0, 0, 1, 2, 0, 0, 129, 0, 0, 0, 1, 0, 0, 0, 239, 19, 0, 0,
    1, 0, 0, 0, 0, 0, 0, 0, 0, 0, 0, 0, 1, 0, 0, 0, 1, 1, 0, 0, 47, 0, 0, 0, 0, 0, 0, 0, 1, 5, 0,
    0, 9, 0, 0, 0, 1, 1, 0, 0, 83, 121, 110, 99, 116, 104, 105, 110, 103, 0, 0, 0, 166, 0, 0, 0,
    1, 2, 0, 0, 54, 52, 99, 98, 55, 101, 97, 97, 57, 97, 49, 98, 98, 99, 99, 99, 52, 101, 49, 51,
    57, 55, 99, 57, 102, 50, 97, 52, 49, 49, 101, 98, 101, 53, 51, 57, 99, 100, 50, 57, 59, 48,
    48, 48, 48, 48, 48, 48, 48, 59, 48, 48, 48, 48, 48, 48, 48, 48, 59, 48, 48, 48, 48, 48, 48,
    48, 48, 48, 48, 48, 48, 48, 48, 50, 48, 59, 99, 111, 109, 46, 97, 112, 112, 108, 101, 46, 97,
    112, 112, 45, 115, 97, 110, 100, 98, 111, 120, 46, 114, 101, 97, 100, 45, 119, 114, 105, 116,
    101, 59, 48, 49, 59, 48, 49, 48, 48, 48, 48, 48, 52, 59, 48, 48, 48, 48, 48, 48, 48, 48, 48,
    48, 48, 97, 99, 54, 50, 97, 59, 47, 97, 112, 112, 108, 105, 99, 97, 116, 105, 111, 110, 115,
    47, 115, 121, 110, 99, 116, 104, 105, 110, 103, 46, 97, 112, 112, 0, 0, 0, 180, 0, 0, 0, 254,
    255, 255, 255, 1, 0, 0, 0, 0, 0, 0, 0, 14, 0, 0, 0, 4, 16, 0, 0, 48, 0, 0, 0, 0, 0, 0, 0, 5,
    16, 0, 0, 96, 0, 0, 0, 0, 0, 0, 0, 16, 16, 0, 0, 128, 0, 0, 0, 0, 0, 0, 0, 64, 16, 0, 0, 112,
    0, 0, 0, 0, 0, 0, 0, 2, 32, 0, 0, 48, 1, 0, 0, 0, 0, 0, 0, 5, 32, 0, 0, 160, 0, 0, 0, 0, 0, 0,
    0, 16, 32, 0, 0, 176, 0, 0, 0, 0, 0, 0, 0, 17, 32, 0, 0, 228, 0, 0, 0, 0, 0, 0, 0, 18, 32, 0,
    0, 196, 0, 0, 0, 0, 0, 0, 0, 19, 32, 0, 0, 212, 0, 0, 0, 0, 0, 0, 0, 32, 32, 0, 0, 16, 1, 0,
    0, 0, 0, 0, 0, 48, 32, 0, 0, 60, 1, 0, 0, 0, 0, 0, 0, 23, 240, 0, 0, 68, 1, 0, 0, 0, 0, 0, 0,
    128, 240, 0, 0, 88, 1, 0, 0, 0, 0, 0, 0]

/-- Valid 48-byte bookmark header (signature `book`, data offset 48) with
an empty body, used to witness C2. -/
def headerOnlyBlob : List Nat :=
  [98, 111, 111, 107] ++ List.replicate 8 0 ++ [48, 0, 0, 0] ++ List.replicate 32 0

theorem except_bind_ok {α β : Type} (v : α) (f : α → Except NomErr β) :
    (Except.ok v : Except NomErr α) >>= f = f v := rfl

theorem except_bind_error {α β : Type} (e : NomErr) (f : α → Except NomErr β) :
    (Except.error e : Except NomErr α) >>= f = .error e := rfl

theorem takeBytes_error (n : Nat) (l : List Nat) (h : l.length < n) :
    takeBytes n l = .error .incomplete := by
  unfold takeBytes
  rw [if_pos h]

theorem wrapSub32_of_lt (a : Nat) (ha : a < 4) : wrapSub32 a 4 = a + 4294967292 := by
  unfold wrapSub32
  rw [Nat.mod_eq_of_lt (by omega)]
  omega

theorem takeBytes_ok (n : Nat) (l : List Nat) (h : n ≤ l.length) :
    takeBytes n l = .ok (l.drop n, l.take n) := by
  unfold takeBytes
  rw [if_neg (by omega)]

theorem bookmark_header_of_length_ge_48 (data : List Nat) (h : 48 ≤ data.length) :
    bookmark_header data =
      .ok (data.drop 48,
        ⟨leNum (data.take 4), leNum ((data.drop 4).take 4),
         beNum ((data.drop 8).take 4), leNum ((data.drop 12).take 4)⟩) := by
  simp (disch := first | omega | (simp only [List.length_drop]; omega)) only
    [bookmark_header, takeBytes_ok, bind, Except.bind, List.drop_drop, pure, Except.pure]

theorem processBlob_skip_of_bad_header (data : List Nat) (h48 : 48 ≤ data.length)
    (hbad : leNum (data.take 4) ≠ 1802465122 ∨ leNum ((data.drop 12).take 4) ≠ 48) :
    processBlob data = .ok none := by
  unfold processBlob
  rw [bookmark_header_of_length_ge_48 data h48]
  dsimp only
  rw [if_pos hbad]

/-- Claim C1: a candidate blob of length at least 48 whose little-endian
signature is not `book` (1802465122) or whose data-offset field at byte 12
is not 48 is skipped silently — it contributes no record and no error, and
the candidate loop continues as if the blob were absent. -/
theorem claim1_bad_header_skipped (data : List Nat) (h48 : 48 ≤ data.length)
    (hbad : leNum (data.take 4) ≠ 1802465122 ∨ leNum ((data.drop 12).take 4) ≠ 48) :
    processBlob data = .ok none ∧
      ∀ pre post : List (List Nat),
        processBlobs (pre ++ data :: post) = processBlobs (pre ++ post) := by
  have hskip := processBlob_skip_of_bad_header data h48 hbad
  refine ⟨hskip, ?_⟩
  intro pre post
  induction pre with
  | nil =>
    simp only [List.nil_append]
    conv_lhs => rw [processBlobs]
    rw [hskip]
  | cons p pre ih =>
    simp only [List.cons_append]
    unfold processBlobs
    cases hp : processBlob p with
    | error e => rfl
    | ok v =>
      cases v with
      | none => exact ih
      | some r => rw [ih]

/-- Witness for C1: 48 zero bytes are long enough, carry a wrong
signature, and are skipped without error. -/
theorem claim1_witness :
    48 ≤ (List.replicate 48 0).length ∧
      processBlob (List.replicate 48 0) = .ok none ∧
      processBlobs [List.replicate 48 0] = processBlobs [] :=
  ⟨by decide,
   (claim1_bad_header_skipped (List.replicate 48 0) (by decide) (Or.inl (by decide))).1,
   (claim1_bad_header_skipped (List.replicate 48 0) (by decide) (Or.inl (by decide))).2 [] []⟩

/-- Claim C2: once a candidate passes the 48-byte header check (valid
signature and data offset 48) but its body fails to decode, the whole
document decode fails with that error at the first such failure, whatever
candidates follow — no partial result list is returned. -/
theorem claim2_body_failure_aborts (path : String) (pre post : List (List Nat))
    (blob rest : List Nat) (header : BookmarkHeader) (e : NomErr)
    (hpre : ∀ b ∈ pre, ∃ v, processBlob b = .ok v)
    (hhdr : bookmark_header blob = .ok (rest, header))
    (hsig : header.signature = 1802465122)
    (hoff : header.bookmark_data_offset = 48)
    (hbody : bookmark_data rest = .error e) :
    parse_loginitems path (pre ++ blob :: post) = .error e := by
  have hfail : processBlob blob = .error e := by
    unfold processBlob
    rw [hhdr]
    dsimp only
    rw [if_neg (by simp [hsig, hoff]), hbody]
  have hloop : processBlobs (pre ++ blob :: post) = .error e := by
    induction pre with
    | nil =>
      simp only [List.nil_append]
      conv_lhs => rw [processBlobs]
      rw [hfail]
    | cons p pr ih =>
      simp only [List.cons_append]
      conv_lhs => rw [processBlobs]
      obtain ⟨v, hv⟩ := hpre p (by simp)
      rw [hv]
      have ihx := ih (fun b hb => hpre b (by simp [hb]))
      cases v with
      | none => exact ihx
      | some r => rw [ihx]; rfl
  unfold parse_loginitems
  rw [if_neg (by simp), hloop]
  rfl

/-- Witness for C2: a 48-byte candidate with a valid header and an empty
body aborts the whole document with an error, even though a decodable
document-wide state preceded it. -/
theorem claim2_witness :
    bookmark_header headerOnlyBlob = .ok ([], ⟨1802465122, 0, 0, 48⟩) ∧
      bookmark_data [] = .error .incomplete ∧
      parse_loginitems "a" [headerOnlyBlob] = .error .incomplete :=
  ⟨rfl, rfl,
   claim2_body_failure_aborts "a" [] [] headerOnlyBlob [] ⟨1802465122, 0, 0, 48⟩ .incomplete
     (by simp) rfl rfl rfl rfl⟩

/-- Counterexample for C9: with a plist yielding zero candidates,
`parse_loginitems` succeeds but reports the empty string as path, not the
input path `"a"`. -/
theorem claim9_counterexample :
    parse_loginitems "a" [] = .ok ⟨[], ""⟩ ∧ ("" : String) ≠ "a" :=
  ⟨rfl, by decide⟩

/-- Claim C9 (amended): when at least one candidate blob was found, a
successful `parse_loginitems` reports the input path in the result; when
the candidate list is empty, the early return carries an empty results
list and an **empty** path string instead of the input path. -/
theorem claim9_amended_path_field :
    (∀ (path : String) (blobs : List (List Nat)) (r : LoginItemsResults),
        blobs ≠ [] → parse_loginitems path blobs = .ok r → r.path = path) ∧
      ∀ path : String, parse_loginitems path [] = .ok ⟨[], ""⟩ := by
  constructor
  · intro path blobs r hne hok
    unfold parse_loginitems at hok
    rw [if_neg hne] at hok
    cases hpb : processBlobs blobs with
    | error e => rw [hpb] at hok; exact absurd hok (by simp [Except.map])
    | ok v =>
      rw [hpb] at hok
      simp only [Except.map] at hok
      cases hok
      rfl
  · intro path
    rfl

/-- Witness for C9: a single skipped candidate still returns the input
path `"a"`. -/
theorem claim9_witness :
    ([List.replicate 48 0] : List (List Nat)) ≠ [] ∧
      parse_loginitems "a" [List.replicate 48 0] = .ok ⟨[], "a"⟩ ∧
      (⟨[], "a"⟩ : LoginItemsResults).path = "a" :=
  ⟨by simp, rfl,
   claim9_amended_path_field.1 "a" [List.replicate 48 0] ⟨[], "a"⟩ (by simp) rfl⟩

/-- Counterexample for C6: a 1-byte blob appearing as a top-level entry of
the `$objects` array is returned as a candidate — the 48-byte filter is
not applied to top-level `Data` entries. -/
theorem claim6_counterexample :
    get_bookmarks [("$objects", PValue.array [PValue.data [0]])] = [[0]] ∧
      ([0] : List Nat).length < 48 :=
  ⟨rfl, by decide⟩

/-- Claim C6 (amended): only byte blobs nested one level inside a
dictionary within `$objects` are subject to the minimum-48-byte filter
(shorter ones are silently dropped); a top-level `Data` entry is always
emitted as a candidate, whatever its length. -/
theorem claim6_amended_blob_filter :
    (∀ (bytes : List Nat) (rest : List PValue),
        get_array_values (PValue.data bytes :: rest) = bytes :: get_array_values rest) ∧
      (∀ (k : String) (bytes : List Nat) (entries : List (String × PValue))
          (rest : List PValue), bytes.length < 48 →
          get_array_values (PValue.dict ((k, PValue.data bytes) :: entries) :: rest) =
            get_array_values (PValue.dict entries :: rest)) ∧
      ∀ (k : String) (bytes : List Nat) (entries : List (String × PValue))
          (rest : List PValue), 48 ≤ bytes.length →
          get_array_values (PValue.dict ((k, PValue.data bytes) :: entries) :: rest) =
            bytes :: get_array_values (PValue.dict entries :: rest) := by
  refine ⟨fun bytes rest => rfl, ?_, ?_⟩
  · intro k bytes entries rest h
    simp only [get_array_values, dict_array_values]
    rw [if_pos h]
  · intro k bytes entries rest h
    simp only [get_array_values, dict_array_values]
    rw [if_neg (by omega)]
    rfl

/-- Witness for C6: a short dictionary-nested blob is dropped, a 48-byte
one is kept. -/
theorem claim6_witness :
    get_array_values [PValue.dict [("k", PValue.data [0])]] =
        get_array_values [PValue.dict []] ∧
      get_array_values [PValue.dict [("k", PValue.data (List.replicate 48 7))]] =
        List.replicate 48 7 :: get_array_values [PValue.dict []] :=
  ⟨claim6_amended_blob_filter.2.1 "k" [0] [] [] (by decide),
   claim6_amended_blob_filter.2.2 "k" (List.replicate 48 7) [] [] (by decide)⟩

/-- Claim C8 (code bug, evaluated at the failing input): in the
bundled-app registry reader, a non-version key with a string value yields
the bundled record, and a version-prefixed key is skipped even with a
non-string value; but a non-version key with a non-string value runs into
`value.as_string().unwrap()` — a panic (modelled `none`), not the
skip-with-warning the claim describes. -/
theorem claim8_nonstring_value_panics :
    loginitem_apps_entries [("com.docker.helper", AppValue.str "com.docker.docker")] =
        some [{ defaultLoginItems with
                  is_bundled := true, app_id := "com.docker.docker",
                  app_binary := "com.docker.helper" }] ∧
      loginitem_apps_entries [("version2", AppValue.nonstr)] = some [] ∧
      loginitem_apps_entries
          [("com.docker.helper", AppValue.str "com.docker.docker"),
           ("other", AppValue.nonstr)] = none := by
  refine ⟨?_, ?_, ?_⟩ <;> decide

/-- Counterexample for C10: a TOC record with `data_offset = 0` makes the
unchecked `u32` subtraction `data_offset - 4` underflow — under release
semantics it wraps to 4294967292 rather than the mathematical difference —
and the affected decoders return an error, with the same wrap on a
`table_of_contents_offset` below 4. -/
theorem claim10_counterexample :
    wrapSub32 0 4 = 4294967292 ∧ ((wrapSub32 0 4 : Int) ≠ (0 : Int) - 4) ∧
      bookmark_standard_data (List.replicate 20 0) ⟨4100, 0, 0⟩ = .error .incomplete ∧
      bookmark_data (List.replicate 20 0) = .error .incomplete :=
  ⟨rfl, by decide, rfl, rfl⟩

/-- Claim C10 (amended): the sub-4 offsets are not handled specially — the
`u32` subtractions `data_offset - 4` and `table_of_contents_offset - 4` do
underflow (wrapping under release semantics, a panic under debug
assertions). Under the wrapping semantics modelled here decoding stays
total over the error type: the wrapped skip of at least `2^32 - 4` bytes
overruns any input shorter than that, so both `bookmark_standard_data` and
`bookmark_data` return an error rather than a record. -/
theorem claim10_amended_underflow_wraps :
    (∀ (data : List Nat) (record : TableOfContentsDataRecord),
        record.data_offset < 4 → data.length < 4294967292 →
        bookmark_standard_data data record = .error .incomplete) ∧
      ∀ data : List Nat, leNum (data.take 4) < 4 → data.length < 4294967296 →
        bookmark_data data = .error .incomplete := by
  constructor
  · intro data record h4 hlen
    unfold bookmark_standard_data
    rw [wrapSub32_of_lt record.data_offset h4]
    dsimp only
    rw [takeBytes_error _ data (by omega)]
    rfl
  · intro data hoff hlen
    by_cases hl : data.length < 4
    · unfold bookmark_data
      rw [takeBytes_error 4 data hl]
      rfl
    · unfold bookmark_data
      rw [takeBytes_ok 4 data (by omega), except_bind_ok]
      dsimp only
      rw [wrapSub32_of_lt _ hoff,
        takeBytes_error _ (data.drop 4) (by simp only [List.length_drop]; omega)]
      rfl

/-- Witness for C10: concrete sub-4 offsets wrap and produce errors. -/
theorem claim10_witness :
    (⟨4100, 1, 0⟩ : TableOfContentsDataRecord).data_offset < 4 ∧
      bookmark_standard_data (List.replicate 6 0) ⟨4100, 1, 0⟩ = .error .incomplete ∧
      bookmark_data [3, 0, 0, 0, 7] = .error .incomplete :=
  ⟨by decide,
   claim10_amended_underflow_wraps.1 (List.replicate 6 0) ⟨4100, 1, 0⟩ (by decide) (by decide),
   claim10_amended_underflow_wraps.2 [3, 0, 0, 0, 7] (by decide) (by decide)⟩

theorem table_of_contents_record_reads_exactly (n : Nat) :
    ∀ input : List Nat, 12 * n ≤ input.length →
      ∃ recs, table_of_contents_record input n = .ok (input.drop (12 * n), recs) ∧
        recs.length = n := by
  induction n with
  | zero =>
    intro input _
    exact ⟨[], by simp [table_of_contents_record], rfl⟩
  | succ m ih =>
    intro input hlen
    obtain ⟨recs, hrec, hcount⟩ := ih (input.drop 12) (by simp only [List.length_drop]; omega)
    refine ⟨⟨leNum (input.take 4), leNum ((input.drop 4).take 4),
             leNum ((input.drop 8).take 4)⟩ :: recs, ?_, by simp [hcount]⟩
    unfold table_of_contents_record
    rw [takeBytes_ok 4 input (by omega), except_bind_ok]
    dsimp only
    rw [takeBytes_ok 4 (input.drop 4) (by simp only [List.length_drop]; omega), except_bind_ok]
    dsimp only
    simp only [List.drop_drop]
    rw [takeBytes_ok 4 (input.drop 8) (by simp only [List.length_drop]; omega), except_bind_ok]
    dsimp only
    simp only [List.drop_drop]
    rw [show (8 : Nat) + 4 = 12 from rfl, hrec, except_bind_ok]
    dsimp only
    rw [List.drop_drop, show 12 + 12 * m = 12 * (m + 1) from by ring]
    rfl

theorem table_of_contents_data_resizes_on_discrepancy (data : List Nat) (dl n : Nat)
    (hn : leNum ((data.drop 8).take 4) = n) (hdisc : dl < 12 * n)
    (henough : 12 + 12 * n ≤ data.length) :
    table_of_contents_data data dl =
      .ok ((data.drop 12).take (12 * n),
        ⟨leNum (data.take 4), leNum ((data.drop 4).take 4), n⟩) := by
  unfold table_of_contents_data
  rw [takeBytes_ok 4 data (by omega), except_bind_ok]
  dsimp only
  rw [takeBytes_ok 4 (data.drop 4) (by simp only [List.length_drop]; omega), except_bind_ok]
  dsimp only
  simp only [List.drop_drop]
  rw [takeBytes_ok 4 (data.drop 8) (by simp only [List.length_drop]; omega), except_bind_ok]
  dsimp only
  simp only [List.drop_drop, hn]
  rw [if_pos hdisc,
    takeBytes_ok (12 * n) (data.drop (4 + 8)) (by simp only [List.length_drop]; omega),
    except_bind_ok]
  rfl

/-- Claim C5: when a TOC header reports a `data_length` smaller than
`12 × number_of_records`, the decoder ignores the discrepancy and sizes
the record block as `12 × number_of_records` from the TOC body count
field; the subsequent record parse consumes that block completely and
yields exactly `number_of_records` records, provided enough bytes remain. -/
theorem claim5_record_block_sized_from_count (data : List Nat) (dl n : Nat)
    (hn : leNum ((data.drop 8).take 4) = n) (hdisc : dl < 12 * n)
    (henough : 12 + 12 * n ≤ data.length) :
    ∃ block toc recs,
      table_of_contents_data data dl = .ok (block, toc) ∧
      toc.number_of_records = n ∧
      block = (data.drop 12).take (12 * n) ∧
      block.length = 12 * n ∧
      table_of_contents_record block n = .ok ([], recs) ∧
      recs.length = n := by
  have hblocklen : ((data.drop 12).take (12 * n)).length = 12 * n := by
    simp only [List.length_take, List.length_drop]
    omega
  obtain ⟨recs, hrec, hcount⟩ :=
    table_of_contents_record_reads_exactly n ((data.drop 12).take (12 * n)) (by omega)
  refine ⟨(data.drop 12).take (12 * n),
    ⟨leNum (data.take 4), leNum ((data.drop 4).take 4), n⟩, recs,
    table_of_contents_data_resizes_on_discrepancy data dl n hn hdisc henough,
    rfl, rfl, hblocklen, ?_, hcount⟩
  rw [hrec]
  rw [show ((data.drop 12).take (12 * n)).drop (12 * n) = [] from by
    apply List.drop_eq_nil_of_le
    omega]

/-- Witness for C5: a 24-byte TOC body and table whose header lies
(`data_length` 4 while one 12-byte record follows) still yields exactly
one record. -/
theorem claim5_witness :
    leNum (([1, 0, 0, 0, 0, 0, 0, 0, 1, 0, 0, 0,
             4, 16, 0, 0, 48, 0, 0, 0, 0, 0, 0, 0].drop 8).take 4) = 1 ∧
      (4 : Nat) < 12 * 1 ∧
      ∃ block toc recs,
        table_of_contents_data
            [1, 0, 0, 0, 0, 0, 0, 0, 1, 0, 0, 0,
             4, 16, 0, 0, 48, 0, 0, 0, 0, 0, 0, 0] 4 = .ok (block, toc) ∧
        toc.number_of_records = 1 ∧
        block = ([1, 0, 0, 0, 0, 0, 0, 0, 1, 0, 0, 0,
                  4, 16, 0, 0, 48, 0, 0, 0, 0, 0, 0, 0].drop 12).take (12 * 1) ∧
        block.length = 12 * 1 ∧
        table_of_contents_record block 1 = .ok ([], recs) ∧
        recs.length = 1 :=
  ⟨by decide, by decide,
   claim5_record_block_sized_from_count
     [1, 0, 0, 0, 0, 0, 0, 0, 1, 0, 0, 0, 4, 16, 0, 0, 48, 0, 0, 0, 0, 0, 0, 0]
     4 1 (by decide) (by decide) (by decide)⟩

theorem flags_go_unfold (input acc : List Nat) :
    bookmark_target_flags.bookmark_target_flags_go input acc =
      if input.length < 8 then .error .incomplete
      else
        if input.drop 8 = [] ∨ (acc ++ [leNum (input.take 8)]).length = 3 then
          .ok (input.drop 8, acc ++ [leNum (input.take 8)])
        else
          bookmark_target_flags.bookmark_target_flags_go (input.drop 8)
            (acc ++ [leNum (input.take 8)]) := by
  match input with
  | [] => rfl
  | [b0] => rfl
  | [b0, b1] => rfl
  | [b0, b1, b2] => rfl
  | [b0, b1, b2, b3] => rfl
  | [b0, b1, b2, b3, b4] => rfl
  | [b0, b1, b2, b3, b4, b5] => rfl
  | [b0, b1, b2, b3, b4, b5, b6] => rfl
  | b0 :: b1 :: b2 :: b3 :: b4 :: b5 :: b6 :: b7 :: tail =>
    conv_rhs => rw [if_neg (show
      ¬((b0 :: b1 :: b2 :: b3 :: b4 :: b5 :: b6 :: b7 :: tail).length < 8) from by
        simp only [List.length_cons]; omega)]
    rw [bookmark_target_flags.bookmark_target_flags_go]
    rfl

theorem flags_go_length_le_three (N : Nat) :
    ∀ input acc rest flags : List Nat, input.length ≤ N → acc.length < 3 →
      bookmark_target_flags.bookmark_target_flags_go input acc = .ok (rest, flags) →
      flags.length ≤ 3 := by
  induction N with
  | zero =>
    intro input acc rest flags hN hacc h
    rw [flags_go_unfold, if_pos (by omega)] at h
    exact absurd h (by simp)
  | succ n ih =>
    intro input acc rest flags hN hacc h
    rw [flags_go_unfold] at h
    by_cases h8 : input.length < 8
    · rw [if_pos h8] at h
      exact absurd h (by simp)
    · rw [if_neg h8] at h
      by_cases hstop : input.drop 8 = [] ∨ (acc ++ [leNum (input.take 8)]).length = 3
      · rw [if_pos hstop] at h
        have hflags : flags = acc ++ [leNum (input.take 8)] := by
          injection h with h2
          injection h2 with _ h3
          exact h3.symm
        subst hflags
        simp only [List.length_append, List.length_cons, List.length_nil]
        omega
      · rw [if_neg hstop] at h
        push_neg at hstop
        refine ih (input.drop 8) (acc ++ [leNum (input.take 8)]) rest flags
          (by simp only [List.length_drop]; omega) ?_ h
        have := hstop.2
        simp only [List.length_append, List.length_cons, List.length_nil] at this ⊢
        omega

theorem bookmark_target_flags_length_le_three (input rest flags : List Nat)
    (h : bookmark_target_flags input = .ok (rest, flags)) : flags.length ≤ 3 :=
  flags_go_length_le_three input.length input [] rest flags le_rfl (by simp) h

theorem process_array_items_invariant (P : LoginItemsData → Prop)
    (hitem : ∀ sd item, P item → P (process_array_item sd item)) :
    ∀ (vec : List StandardDataRecord) (item : LoginItemsData), P item →
      P (process_array_items vec item) := by
  intro vec
  induction vec with
  | nil => intro item h; exact h
  | cons sd rest ih => intro item h; exact ih _ (hitem sd item h)

theorem process_record_invariant (P : LoginItemsData → Prop)
    (hscalar : ∀ sd rd item, P item → P (process_scalar sd rd item))
    (hitem : ∀ sd item, P item → P (process_array_item sd item)) :
    ∀ (core : List Nat) (item : LoginItemsData) (record : TableOfContentsDataRecord)
      (res : LoginItemsData), process_record core item record = .ok res → P item → P res := by
  intro core item record res h hP
  unfold process_record at h
  cases hsd : bookmark_standard_data core record with
  | error e => rw [hsd, except_bind_error] at h; exact absurd h (by simp)
  | ok v =>
    rw [hsd, except_bind_ok] at h
    dsimp only at h
    split at h
    · split at h
      · split at h
        · simp only [pure, Except.pure, Except.ok.injEq] at h
          exact h ▸ hP
        · cases hld : loginitem_data core _ record with
          | error e => rw [hld, except_bind_error] at h; exact absurd h (by simp)
          | ok w =>
            rw [hld, except_bind_ok] at h
            simp only [pure, Except.pure, Except.ok.injEq] at h
            exact h ▸ process_array_items_invariant P hitem _ item hP
      · simp only [pure, Except.pure, Except.ok.injEq] at h
        exact h ▸ hscalar _ _ _ hP
    · simp only [pure, Except.pure, Except.ok.injEq] at h
      exact h ▸ hscalar _ _ _ hP

theorem process_records_invariant (P : LoginItemsData → Prop)
    (hscalar : ∀ sd rd item, P item → P (process_scalar sd rd item))
    (hitem : ∀ sd item, P item → P (process_array_item sd item)) :
    ∀ (core : List Nat) (recs : List TableOfContentsDataRecord) (item res : LoginItemsData),
      process_records core recs item = .ok res → P item → P res := by
  intro core recs
  induction recs with
  | nil =>
    intro item res h hP
    rw [process_records] at h
    simp only [Except.ok.injEq] at h
    exact h ▸ hP
  | cons r rs ih =>
    intro item res h hP
    rw [process_records] at h
    cases hr : process_record core item r with
    | error e => rw [hr, except_bind_error] at h; exact absurd h (by simp)
    | ok mid =>
      rw [hr, except_bind_ok] at h
      exact ih mid res h (process_record_invariant P hscalar hitem core item r mid hr hP)

theorem bookmark_data_invariant (P : LoginItemsData → Prop)
    (hscalar : ∀ sd rd item, P item → P (process_scalar sd rd item))
    (hitem : ∀ sd item, P item → P (process_array_item sd item))
    (hinit : P defaultLoginItems) :
    ∀ (data rest : List Nat) (r : LoginItemsData),
      bookmark_data data = .ok (rest, r) → P r := by
  intro data rest r h
  unfold bookmark_data at h
  cases h1 : takeBytes 4 data with
  | error e => rw [h1, except_bind_error] at h; exact absurd h (by simp)
  | ok v1 =>
    obtain ⟨in1, offb⟩ := v1
    rw [h1, except_bind_ok] at h
    dsimp only at h
    cases h2 : takeBytes (wrapSub32 (leNum offb) 4) in1 with
    | error e => rw [h2, except_bind_error] at h; exact absurd h (by simp)
    | ok v2 =>
      obtain ⟨in2, core⟩ := v2
      rw [h2, except_bind_ok] at h
      dsimp only at h
      cases h3 : table_of_contents_header in2 with
      | error e => rw [h3, except_bind_error] at h; exact absurd h (by simp)
      | ok v3 =>
        obtain ⟨in3, toch⟩ := v3
        rw [h3, except_bind_ok] at h
        dsimp only at h
        cases h4 : table_of_contents_data in3 toch.data_length with
        | error e => rw [h4, except_bind_error] at h; exact absurd h (by simp)
        | ok v4 =>
          obtain ⟨in4, tocd⟩ := v4
          rw [h4, except_bind_ok] at h
          dsimp only at h
          cases h5 : table_of_contents_record in4 tocd.number_of_records with
          | error e => rw [h5, except_bind_error] at h; exact absurd h (by simp)
          | ok v5 =>
            obtain ⟨in5, recs⟩ := v5
            rw [h5, except_bind_ok] at h
            dsimp only at h
            cases h6 : process_records core recs defaultLoginItems with
            | error e => rw [h6, except_bind_error] at h; exact absurd h (by simp)
            | ok fin =>
              rw [h6, except_bind_ok] at h
              simp only [pure, Except.pure, Except.ok.injEq, Prod.mk.injEq] at h
              exact h.2 ▸
                process_records_invariant P hscalar hitem core recs defaultLoginItems fin h6 hinit

theorem process_scalar_pred (P : LoginItemsData → Prop)
    (sd : StandardDataRecord) (rd : List Nat) (item : LoginItemsData)
    (h0 : P item)
    (htf : ∀ rest flags, bookmark_target_flags rd = .ok (rest, flags) → flags ≠ [] →
      P (set_target_flags item flags))
    (hcr : ∀ v, P (set_creation item v))
    (hvp : ∀ v, P (set_volume_path item v))
    (hvu : ∀ v, P (set_volume_url item v))
    (hvn : ∀ v, P (set_volume_name item v))
    (hvi : ∀ v, P (set_volume_uuid item v))
    (hvs : ∀ v, P (set_volume_size item v))
    (hvc : ∀ v, P (set_volume_creation item v))
    (hvf : ∀ rest flags, bookmark_target_flags rd = .ok (rest, flags) →
      P (set_volume_flag item flags))
    (hvr : P (set_volume_root item))
    (hln : ∀ v, P (set_localized_name item v))
    (hse : ∀ v, P (set_security_extension item v))
    (hun : ∀ v, P (set_username item v))
    (hfi : ∀ v, P (set_folder_index item v))
    (hui : ∀ v, P (set_uid item v))
    (hco : ∀ v, P (set_creation_options item v)) :
    P (process_scalar sd rd item) := by
  unfold process_scalar
  by_cases c1 : sd.record_type = TARGET_FLAGS ∧ sd.data_type = DATA_TYPE
  · rw [if_pos c1]
    cases hm1 : bookmark_target_flags rd with
    | error e => exact h0
    | ok v =>
      obtain ⟨rest, flags⟩ := v
      dsimp only
      by_cases hz : flags = []
      · rw [if_pos hz]
        exact h0
      · rw [if_neg hz]
        exact htf rest flags hm1 hz
  · rw [if_neg c1]
    by_cases c2 : sd.record_type = TARGET_CREATION_DATE ∧ sd.data_type = DATE
    · rw [if_pos c2]
      cases hm2 : bookmark_data_type_date rd with
      | error e => exact h0
      | ok v =>
        obtain ⟨r2, val⟩ := v
        exact hcr val
    · rw [if_neg c2]
      by_cases c3 : sd.record_type = VOLUME_PATH ∧ sd.data_type = STRING_TYPE
      · rw [if_pos c3]
        cases hm3 : bookmark_data_type_string rd with
        | none => exact h0
        | some val => exact hvp val
      · rw [if_neg c3]
        by_cases c4 : sd.record_type = VOLUME_URL ∧ sd.data_type = URL
        · rw [if_pos c4]
          cases hm4 : bookmark_data_type_string rd with
          | none => exact h0
          | some val => exact hvu val
        · rw [if_neg c4]
          by_cases c5 : sd.record_type = VOLUME_NAME ∧ sd.data_type = STRING_TYPE
          · rw [if_pos c5]
            cases hm5 : bookmark_data_type_string rd with
            | none => exact h0
            | some val => exact hvn val
          · rw [if_neg c5]
            by_cases c6 : sd.record_type = VOLUME_UUID ∧ sd.data_type = STRING_TYPE
            · rw [if_pos c6]
              cases hm6 : bookmark_data_type_string rd with
              | none => exact h0
              | some val => exact hvi val
            · rw [if_neg c6]
              by_cases c7 : sd.record_type = VOLUME_SIZE ∧ sd.data_type = NUMBER_EIGHT_BYTE
              · rw [if_pos c7]
                cases hm7 : bookmark_data_type_number_eight rd with
                | error e => exact h0
                | ok v =>
                  obtain ⟨r2, val⟩ := v
                  exact hvs val
              · rw [if_neg c7]
                by_cases c8 : sd.record_type = VOLUME_CREATION ∧ sd.data_type = DATE
                · rw [if_pos c8]
                  cases hm8 : bookmark_data_type_date rd with
                  | error e => exact h0
                  | ok v =>
                    obtain ⟨r2, val⟩ := v
                    exact hvc val
                · rw [if_neg c8]
                  by_cases c9 : sd.record_type = VOLUME_FLAGS ∧ sd.data_type = DATA_TYPE
                  · rw [if_pos c9]
                    cases hm9 : bookmark_target_flags rd with
                    | error e => exact h0
                    | ok v =>
                      obtain ⟨r2, flags⟩ := v
                      exact hvf r2 flags hm9
                  · rw [if_neg c9]
                    by_cases c10 : sd.record_type = VOLUME_ROOT ∧ sd.data_type = BOOL_TRUE
                    · rw [if_pos c10]
                      exact hvr
                    · rw [if_neg c10]
                      by_cases c11 : sd.record_type = LOCALIZED_NAME ∧ sd.data_type = STRING_TYPE
                      · rw [if_pos c11]
                        cases hm11 : bookmark_data_type_string rd with
                        | none => exact h0
                        | some val => exact hln val
                      · rw [if_neg c11]
                        by_cases c12 : sd.record_type = SECURITY_EXTENSION ∧ sd.data_type = DATA_TYPE
                        · rw [if_pos c12]
                          cases hm12 : bookmark_data_type_string rd with
                          | none => exact h0
                          | some val => exact hse val
                        · rw [if_neg c12]
                          by_cases c13 : sd.record_type = CREATOR_USERNAME ∧ sd.data_type = STRING_TYPE
                          · rw [if_pos c13]
                            cases hm13 : bookmark_data_type_string rd with
                            | none => exact h0
                            | some val => exact hun val
                          · rw [if_neg c13]
                            by_cases c14 : sd.record_type = CONTAIN_FOLDER_INDEX ∧ sd.data_type = NUMBER_FOUR_BYTE
                            · rw [if_pos c14]
                              cases hm14 : bookmark_data_type_number_four rd with
                              | error e => exact h0
                              | ok v =>
                                obtain ⟨r2, val⟩ := v
                                exact hfi val
                            · rw [if_neg c14]
                              by_cases c15 : sd.record_type = CREATOR_UID ∧ sd.data_type = NUMBER_FOUR_BYTE
                              · rw [if_pos c15]
                                cases hm15 : bookmark_data_type_number_four rd with
                                | error e => exact h0
                                | ok v =>
                                  obtain ⟨r2, val⟩ := v
                                  exact hui val
                              · rw [if_neg c15]
                                by_cases c16 : sd.record_type = CREATION_OPTIONS ∧ sd.data_type = NUMBER_FOUR_BYTE
                                · rw [if_pos c16]
                                  cases hm16 : bookmark_data_type_number_four rd with
                                  | error e => exact h0
                                  | ok v =>
                                    obtain ⟨r2, val⟩ := v
                                    exact hco val
                                · rw [if_neg c16]
                                  exact h0

theorem process_array_item_pred (P : LoginItemsData → Prop)
    (sd : StandardDataRecord) (item : LoginItemsData)
    (h0 : P item)
    (hpp : ∀ v, P (push_path item v))
    (hpc : ∀ v, P (push_cnid item v)) :
    P (process_array_item sd item) := by
  unfold process_array_item
  by_cases c1 : sd.data_type = STRING_TYPE ∧ sd.record_type = TARGET_PATH
  · rw [if_pos c1]
    cases hm : bookmark_data_type_string sd.record_data with
    | none => exact h0
    | some val => exact hpp val
  · rw [if_neg c1]
    by_cases c2 : sd.data_type = NUMBER_EIGHT_BYTE ∧ sd.record_type = TARGET_CNID_PATH
    · rw [if_pos c2]
      cases hm : bookmark_cnid sd.record_data with
      | error e => exact h0
      | ok v =>
        obtain ⟨r2, val⟩ := v
        exact hpc val
    · rw [if_neg c2]
      exact h0

theorem process_scalar_exec_derived (sd : StandardDataRecord) (rd : List Nat)
    (item : LoginItemsData)
    (hP : item.has_executable_flag = decide (item.target_flags.headD 0 &&& 2 ≠ 0)) :
    (process_scalar sd rd item).has_executable_flag =
      decide ((process_scalar sd rd item).target_flags.headD 0 &&& 2 ≠ 0) :=
  process_scalar_pred
    (fun it => it.has_executable_flag = decide (it.target_flags.headD 0 &&& 2 ≠ 0))
    sd rd item hP (fun _ _ _ _ => rfl) (fun _ => hP) (fun _ => hP) (fun _ => hP)
    (fun _ => hP) (fun _ => hP) (fun _ => hP) (fun _ => hP) (fun _ _ _ => hP) hP
    (fun _ => hP) (fun _ => hP) (fun _ => hP) (fun _ => hP) (fun _ => hP) (fun _ => hP)

theorem process_scalar_flag_bounds (sd : StandardDataRecord) (rd : List Nat)
    (item : LoginItemsData)
    (h1 : item.target_flags.length ≤ 3) (h2 : item.volume_flag.length ≤ 3) :
    (process_scalar sd rd item).target_flags.length ≤ 3 ∧
      (process_scalar sd rd item).volume_flag.length ≤ 3 :=
  process_scalar_pred
    (fun it => it.target_flags.length ≤ 3 ∧ it.volume_flag.length ≤ 3)
    sd rd item ⟨h1, h2⟩
    (fun rest flags hm _ => ⟨bookmark_target_flags_length_le_three rd rest flags hm, h2⟩)
    (fun _ => ⟨h1, h2⟩) (fun _ => ⟨h1, h2⟩) (fun _ => ⟨h1, h2⟩) (fun _ => ⟨h1, h2⟩)
    (fun _ => ⟨h1, h2⟩) (fun _ => ⟨h1, h2⟩) (fun _ => ⟨h1, h2⟩)
    (fun rest flags hm => ⟨h1, bookmark_target_flags_length_le_three rd rest flags hm⟩)
    ⟨h1, h2⟩ (fun _ => ⟨h1, h2⟩) (fun _ => ⟨h1, h2⟩) (fun _ => ⟨h1, h2⟩)
    (fun _ => ⟨h1, h2⟩) (fun _ => ⟨h1, h2⟩) (fun _ => ⟨h1, h2⟩)

/-- Claim C7 (spec-modelled field): for every successfully decoded record,
`has_executable_flag` equals `(target_flags[0] & 0x02) != 0` whenever
`target_flags` is non-empty, and is `false` when `target_flags` is
empty. -/
theorem claim7_has_executable_flag_derived (data rest : List Nat) (r : LoginItemsData)
    (h : bookmark_data data = .ok (rest, r)) :
    (r.target_flags = [] → r.has_executable_flag = false) ∧
      ∀ (f0 : Nat) (tl : List Nat), r.target_flags = f0 :: tl →
        r.has_executable_flag = decide (f0 &&& 0x02 ≠ 0) := by
  have hP : r.has_executable_flag = decide (r.target_flags.headD 0 &&& 2 ≠ 0) :=
    bookmark_data_invariant
      (fun it => it.has_executable_flag = decide (it.target_flags.headD 0 &&& 2 ≠ 0))
      (fun sd rd item hp => process_scalar_exec_derived sd rd item hp)
      (fun sd item hp =>
        process_array_item_pred
          (fun it => it.has_executable_flag = decide (it.target_flags.headD 0 &&& 2 ≠ 0))
          sd item hp (fun _ => hp) (fun _ => hp))
      (by decide) data rest r h
  constructor
  · intro he
    rw [hP, he]
    decide
  · intro f0 tl htl
    rw [hP, htl]
    rfl

/-- Witness for C7: the zero-records bookmark decodes to the default
record, whose `target_flags` is empty and `has_executable_flag` false. -/
theorem claim7_witness :
    bookmark_data zeroRecordsBlob =
        .ok ([1, 0, 0, 0, 0, 0, 0, 0, 0, 0, 0, 0], defaultLoginItems) ∧
      defaultLoginItems.target_flags = [] ∧
      defaultLoginItems.has_executable_flag = false :=
  ⟨rfl, rfl,
   (claim7_has_executable_flag_derived zeroRecordsBlob _ defaultLoginItems rfl).1 rfl⟩

/-- Claim C4: for every successfully decoded record, `target_flags` and
`volume_flag` each hold at most three elements; equivalently
`bookmark_target_flags` never returns more than three values. -/
theorem claim4_flags_at_most_three (data rest : List Nat) (r : LoginItemsData)
    (h : bookmark_data data = .ok (rest, r)) :
    r.target_flags.length ≤ 3 ∧ r.volume_flag.length ≤ 3 ∧
      ∀ input rest2 flags : List Nat,
        bookmark_target_flags input = .ok (rest2, flags) → flags.length ≤ 3 := by
  have hQ := bookmark_data_invariant
      (fun it => it.target_flags.length ≤ 3 ∧ it.volume_flag.length ≤ 3)
      (fun sd rd item hp => process_scalar_flag_bounds sd rd item hp.1 hp.2)
      (fun sd item hp =>
        process_array_item_pred
          (fun it => it.target_flags.length ≤ 3 ∧ it.volume_flag.length ≤ 3)
          sd item hp (fun _ => hp) (fun _ => hp))
      (by constructor <;> decide) data rest r h
  exact ⟨hQ.1, hQ.2,
    fun input rest2 flags hf => bookmark_target_flags_length_le_three input rest2 flags hf⟩

/-- Witness for C4: the zero-records bookmark decodes; its flag vectors
have length 0 ≤ 3, and a 32-byte flag payload still yields only 3 flags. -/
theorem claim4_witness :
    bookmark_data zeroRecordsBlob =
        .ok ([1, 0, 0, 0, 0, 0, 0, 0, 0, 0, 0, 0], defaultLoginItems) ∧
      defaultLoginItems.target_flags.length ≤ 3 ∧
      defaultLoginItems.volume_flag.length ≤ 3 ∧
      bookmark_target_flags (List.replicate 32 0) = .ok (List.replicate 8 0, [0, 0, 0]) ∧
      ([0, 0, 0] : List Nat).length ≤ 3 :=
  ⟨rfl,
   (claim4_flags_at_most_three zeroRecordsBlob _ defaultLoginItems rfl).1,
   (claim4_flags_at_most_three zeroRecordsBlob _ defaultLoginItems rfl).2.1,
   rfl,
   (claim4_flags_at_most_three zeroRecordsBlob _ defaultLoginItems rfl).2.2
     (List.replicate 32 0) (List.replicate 8 0) [0, 0, 0] rfl⟩

set_option maxRecDepth 100000 in
/-- Counterexample for C3: `c3blob` decodes successfully with a non-empty
`path` of length 1 and a non-empty `cnid_path` of length 2 — the decoder
does not enforce equal lengths. -/
theorem claim3_counterexample :
    ((bookmark_data c3blob).map fun p => (p.2.path, p.2.cnid_path)) =
        .ok ([[65]], [1, 2]) ∧
      ([[65]] : List (List Nat)) ≠ [] ∧ ([1, 2] : List Int) ≠ [] ∧
      ([[65]] : List (List Nat)).length ≠ ([1, 2] : List Int).length :=
  ⟨rfl, by decide, by decide, by decide⟩

set_option maxRecDepth 400000 in
/-- Claim C3 (amended): the decoder does not enforce
`len(path) = len(cnid_path)` — paths and CNIDs are decoded independently
from separate `TARGET_PATH` and `TARGET_CNID_PATH` arrays, and decodable
blobs with differing non-empty lengths exist; for well-formed macOS
bookmarks such as the repository's Syncthing fixture the two lengths do
agree. -/
theorem claim3_amended_lengths :
    ((bookmark_data syncthingBody).map fun p => (p.2.path, p.2.cnid_path)) =
        .ok ([[65, 112, 112, 108, 105, 99, 97, 116, 105, 111, 110, 115],
              [83, 121, 110, 99, 116, 104, 105, 110, 103, 46, 97, 112, 112]],
             [103, 706090]) ∧
      ((bookmark_data syncthingBody).map fun p =>
          (p.2.path.length, p.2.cnid_path.length)) = .ok (2, 2) ∧
      ((bookmark_data c3blob).map fun p =>
          (p.2.path.length, p.2.cnid_path.length)) = .ok (1, 2) :=
  ⟨rfl, rfl, rfl⟩
